import Mathlib

/-!
Shallow embedding of the jobArena backend (src/server.js and src/models/Job.js).

The embedding covers the three request handlers the claims are about:
`POST /api/company/tests` (createTestConfig), `POST /api/tests/:testId/start`
(startSession) and `POST /api/auth/login` (login).

JavaScript values that the handlers inspect for truthiness are modelled as
`Option` types: `none` stands for an absent (undefined) field, and the
per-type truthiness functions below reproduce JS truthiness (`0` and the
empty string are falsy, any array is truthy).

The in-place shuffle `questions.sort(() => Math.random() - 0.5)` ignores the
array elements: whatever permutation the engine's sort produces depends only
on the drawn random numbers and the array length.  It is therefore modelled
as an index permutation (a list of indices) supplied as a parameter, one per
loop position.  `axios.get` is modelled as a function from endpoint strings
to `Except Unit ApiData`; MongoDB stores are lists of documents in natural
order, `findOne` picking the first match.
-/

/-- An upstream question record as returned by the aptitude API.  Besides the
public fields `id`, `question` and `options` it may carry an answer key,
which the handler must never forward. -/
structure Question where
  id : String
  question : Option String
  options : Option (List String)
  answer : Option String
deriving DecidableEq, Repr

/-- `response.data` of an upstream fetch: either an array of questions or a
single question object. -/
inductive ApiData where
  | arr (qs : List Question)
  | single (q : Question)
deriving DecidableEq, Repr

/-- `Array.isArray(response.data) ? response.data : [response.data]`. -/
def normalizeData : ApiData → List Question
  | .arr qs => qs
  | .single q => [q]

/-- Question as serialized in the session response: exactly the four public
fields `id`, `question`, `options`, `topic` (server.js lines 261-266). -/
structure PubQuestion where
  id : String
  question : String
  options : List String
  topic : String
deriving DecidableEq, Repr

/-- Question as held in the in-memory `test.topics` accumulator:
`{...q, topic, options: q.options || [], question: q.question || ''}` —
note the upstream `answer` field survives the spread. -/
structure SelectedQuestion where
  id : String
  question : String
  options : List String
  answer : Option String
  topic : String
deriving DecidableEq, Repr

/-- One entry of the `test.topics` accumulator. -/
structure TopicResult where
  name : String
  questions : List SelectedQuestion
deriving DecidableEq, Repr

/-- One entry of the `topics` array of the session response. -/
structure PubTopic where
  name : String
  questions : List PubQuestion
deriving DecidableEq, Repr

/-- The successful session response body (server.js lines 257-273). -/
structure SessionPayload where
  sessionId : String
  testId : String
  startTime : String
  duration : Int
  topics : List PubTopic
  totalQuestions : Nat
deriving DecidableEq, Repr

/-- Outcome of `POST /api/tests/:testId/start`. -/
inductive StartResult where
  | notFound (error : String)
  | serverError (error : String)
  | ok (payload : SessionPayload)
deriving DecidableEq, Repr

/-- The request body of `POST /api/company/tests` as destructured by the
handler; `none` is an absent field. -/
structure TestConfigRequest where
  testId : Option String
  name : Option String
  description : Option String
  duration : Option Int
  topics : Option (List String)
  questionsPerTopic : Option Int
  passingScore : Option Int
  isActive : Option Bool
deriving DecidableEq, Repr

/-- The test configuration object built by the handler and pushed onto a
job's `quests` array (server.js lines 181-193). -/
structure TestConfig where
  testId : String
  company : Nat
  name : String
  description : Option String
  duration : Int
  topics : List String
  questionsPerTopic : Int
  passingScore : Int
  isActive : Bool
  createdAt : String
deriving DecidableEq, Repr

/-- A stored Job document (models/Job.js), restricted to the fields the
claims touch plus a representative unrelated field `title`. -/
structure Job where
  company : Nat
  title : String
  quests : List TestConfig
deriving DecidableEq, Repr

/-- Outcome of `POST /api/company/tests`. -/
inductive CreateResult where
  | validationError (error : String)
  | ok (cfg : TestConfig)
deriving DecidableEq, Repr

/-- A stored User document, restricted to the fields login touches. -/
structure User where
  id : Nat
  email : String
  name : String
  role : String
  companyName : Option String
deriving DecidableEq, Repr

/-- The public user shape returned by login (server.js lines 104-113). -/
structure PublicUser where
  id : Nat
  email : String
  name : String
  role : String
  companyName : Option String
deriving DecidableEq, Repr

/-- Outcome of `POST /api/auth/login`. -/
inductive LoginResult where
  | unauthorized (error : String)
  | ok (token : String) (user : PublicUser)
deriving DecidableEq, Repr

/-- The static `AVAILABLE_TOPICS` mapping (server.js lines 36-45). -/
def AVAILABLE_TOPICS : List (String × String) :=
  [("Mixture and Alligation", "MixtureAndAlligation"),
   ("Profit and Loss", "ProfitAndLoss"),
   ("Pipes and Cisterns", "PipesAndCistern"),
   ("Age", "Age"),
   ("Permutation and Combination", "PermutationAndCombination"),
   ("Speed Time Distance", "SpeedTimeDistance"),
   ("Simple Interest", "SimpleInterest"),
   ("Calendars", "Calendar")]

/-- `AVAILABLE_TOPICS[topic]` as an optional lookup. -/
def lookupTopic (t : String) : Option String :=
  (AVAILABLE_TOPICS.find? (fun p => p.1 == t)).map (fun p => p.2)

/-- The endpoint used in the fetch URL; an unknown topic yields the literal
string "undefined" in the URL, as JS interpolation of `undefined` would. -/
def endpointOf (t : String) : String :=
  (lookupTopic t).getD "undefined"

/-- JS truthiness of an optional string (`undefined` and `''` are falsy). -/
def truthyStr : Option String → Bool
  | none => false
  | some s => s != ""

/-- JS truthiness of an optional number (`undefined` and `0` are falsy). -/
def truthyInt : Option Int → Bool
  | none => false
  | some n => n != 0

/-- JS truthiness of an optional array (every array object is truthy). -/
def truthyList : Option (List String) → Bool
  | none => false
  | some _ => true

/-- JS `v || d` for an optional number slot. -/
def jsOrInt (v : Option Int) (d : Int) : Int :=
  if truthyInt v then v.getD d else d

/-- The first topic of the list failing the `AVAILABLE_TOPICS[topic]` check;
the handler's for-loop returns a 400 on the first such topic. -/
def firstInvalidTopic (ts : List String) : Option String :=
  ts.find? (fun t => (lookupTopic t).isNone)

/-- `Job.findOneAndUpdate({company: uid}, {$push: {quests: cfg}})`: append
`cfg` to the quests of the first job owned by `uid`; no-op when none is. -/
def pushQuest (uid : Nat) (cfg : TestConfig) : List Job → List Job
  | [] => []
  | j :: js =>
    if j.company = uid then { j with quests := j.quests ++ [cfg] } :: js
    else j :: pushQuest uid cfg js

/-- The `POST /api/company/tests` handler (server.js lines 153-204), after
the auth middleware: validates, builds the configuration with defaults,
pushes it onto the actor's job, and returns it.  `now` stands for
`new Date().toISOString()`. -/
def createTestConfig (uid : Nat) (req : TestConfigRequest) (now : String)
    (store : List Job) : CreateResult × List Job :=
  if !truthyStr req.testId || !truthyStr req.name || !truthyList req.topics
      || !truthyInt req.questionsPerTopic then
    (.validationError "Missing required fields", store)
  else
    let topics := req.topics.getD []
    match firstInvalidTopic topics with
    | some t => (.validationError ("Invalid topic: " ++ t), store)
    | none =>
      let cfg : TestConfig :=
        { testId := req.testId.getD ""
          company := uid
          name := req.name.getD ""
          description := req.description
          duration := jsOrInt req.duration 45
          topics := topics
          questionsPerTopic := req.questionsPerTopic.getD 0
          passingScore := jsOrInt req.passingScore 60
          isActive := req.isActive != some false
          createdAt := now }
      (.ok cfg, pushQuest uid cfg store)

/-- Apply an index order to a pool: the shuffled pool is the sequence of
pool entries at the given indices (out-of-range indices contribute
nothing; a valid shuffle is a permutation of `List.range pool.length`). -/
def applyIndexPerm (idxs : List Nat) (pool : List Question) : List Question :=
  idxs.filterMap (fun i => pool[i]?)

/-- JS `arr.slice(0, e)`: a negative end counts from the end of the array,
clamped at 0. -/
def jsSlice {α : Type} (l : List α) (e : Int) : List α :=
  if e < 0 then l.take (l.length - e.natAbs) else l.take e.toNat

/-- `{...q, topic, options: q.options || [], question: q.question || ''}`:
tag with the topic and default missing public fields. -/
def selectQuestion (topic : String) (q : Question) : SelectedQuestion :=
  { id := q.id
    question := (q.question.getD "")
    options := (q.options.getD [])
    answer := q.answer
    topic := topic }

/-- The body of the per-topic loop of the start handler (server.js lines
235-252): fetch the pool, normalize, shuffle, slice to the quota, tag. -/
def processTopic (fetch : String → Except Unit ApiData) (perm : List Nat)
    (qpt : Int) (topic : String) : Except Unit TopicResult :=
  match fetch (endpointOf topic) with
  | .error e => .error e
  | .ok data =>
    let questions := normalizeData data
    let selected :=
      (jsSlice (applyIndexPerm perm questions) qpt).map (selectQuestion topic)
    .ok { name := topic, questions := selected }

/-- The sequential per-topic loop; `i` is the loop position, used to pick
that iteration's shuffle.  The first upstream failure aborts the loop. -/
def processTopics (fetch : String → Except Unit ApiData)
    (shuffles : Nat → List Nat) (qpt : Int) :
    Nat → List String → Except Unit (List TopicResult)
  | _, [] => .ok []
  | i, t :: ts =>
    match processTopic fetch (shuffles i) qpt t with
    | .error e => .error e
    | .ok r =>
      match processTopics fetch shuffles qpt (i + 1) ts with
      | .error e => .error e
      | .ok rs => .ok (r :: rs)

/-- `Job.findOne({'quests.testId': testId})`: the first stored job whose
quests array contains an entry with the given testId. -/
def findJobWithTest (testId : String) (store : List Job) : Option Job :=
  store.find? (fun j => j.quests.any (fun q => q.testId == testId))

/-- The quest entry the start handler operates on:
`job.quests.find(q => q.testId === testId)` on the matched job. -/
def matchedConfig (testId : String) (store : List Job) : Option TestConfig :=
  (findJobWithTest testId store).bind
    (fun j => j.quests.find? (fun q => q.testId == testId))

/-- Projection of an accumulated question to the response shape
`{id: q.id, question: q.question, options: q.options, topic: q.topic}`. -/
def toPub (s : SelectedQuestion) : PubQuestion :=
  { id := s.id, question := s.question, options := s.options, topic := s.topic }

/-- Projection of an accumulator entry to a response `topics` entry. -/
def toPubTopic (r : TopicResult) : PubTopic :=
  { name := r.name, questions := r.questions.map toPub }

/-- The `POST /api/tests/:testId/start` handler (server.js lines 207-277),
after the auth middleware.  `now` stands for `new Date().toISOString()`
taken at the start and `nowMs` for `Date.now()` in the session id; `fetch`
is the outbound HTTP client and `shuffles` the random index order drawn at
each loop position. -/
def startSession (fetch : String → Except Unit ApiData)
    (shuffles : Nat → List Nat) (store : List Job) (userId : Nat)
    (now : String) (nowMs : Nat) (testId : String) : StartResult :=
  match findJobWithTest testId store with
  | none => .notFound "Test not found"
  | some job =>
    match job.quests.find? (fun q => q.testId == testId) with
    | none => .notFound "Test not found or inactive"
    | some cfg =>
      if !cfg.isActive then .notFound "Test not found or inactive"
      else
        match processTopics fetch shuffles cfg.questionsPerTopic 0 cfg.topics with
        | .error _ => .serverError "Failed to start test"
        | .ok blocks =>
          .ok { sessionId := testId ++ "-" ++ toString userId ++ "-" ++ toString nowMs
                testId := testId
                startTime := now
                duration := cfg.duration
                topics := blocks.map toPubTopic
                totalQuestions := (blocks.map (fun b => b.questions.length)).sum }

/-- The `POST /api/auth/login` handler (server.js lines 85-116).  `compare`
models `user.comparePassword` (defined in the User model, outside src/:
bcrypt comparison of the supplied password against the stored hash) and
`gen` models `generateToken`; neither outcome shape depends on them. -/
def login (compare : User → String → Bool) (gen : User → String)
    (users : List User) (email password : String) : LoginResult :=
  match users.find? (fun u => u.email == email) with
  | none => .unauthorized "Invalid credentials"
  | some user =>
    if compare user password then
      .ok (gen user)
        { id := user.id, email := user.email, name := user.name
          role := user.role, companyName := user.companyName }
    else .unauthorized "Invalid credentials"

/-- Erase the non-public `answer` field of a question. -/
def scrubQ (q : Question) : Question := { q with answer := none }

/-- Erase answer fields throughout an upstream response body. -/
def scrubData : ApiData → ApiData
  | .arr qs => .arr (qs.map scrubQ)
  | .single q => .single (scrubQ q)

/-- The answer-erased view of an upstream fetcher: two fetchers with the
same scrubbed view differ at most in non-public question fields. -/
def scrubFetch (f : String → Except Unit ApiData) : String → Except Unit ApiData :=
  fun e => (f e).map scrubData

/-- Erase the answer field of an accumulated question. -/
def scrubSel (s : SelectedQuestion) : SelectedQuestion := { s with answer := none }

/-- Erase answer fields throughout an accumulator entry. -/
def scrubTR (r : TopicResult) : TopicResult :=
  { r with questions := r.questions.map scrubSel }

/-! Concrete fixtures used to evaluate the definitions on sample inputs. -/

/-- Sample upstream question with all fields present. -/
def qA : Question :=
  { id := "a", question := some "What is 2+2?", options := some ["3", "4"],
    answer := some "4" }

/-- Sample upstream question with all fields present. -/
def qB : Question :=
  { id := "b", question := some "What is 3+3?", options := some ["5", "6"],
    answer := some "6" }

/-- Sample upstream question with missing optional fields. -/
def qC : Question :=
  { id := "c", question := none, options := none, answer := none }

/-- A fetcher serving a 3-question pool on the Age endpoint. -/
def fetchAge3 : String → Except Unit ApiData :=
  fun e => if e = "Age" then .ok (.arr [qA, qB, qC]) else .error ()

/-- A fetcher for which every request fails. -/
def fetchFail : String → Except Unit ApiData := fun _ => .error ()

/-- Sample question whose answer key is "x". -/
def qAns1 : Question :=
  { id := "a", question := some "Q?", options := some ["x", "y"],
    answer := some "x" }

/-- The same question with the answer key changed to "y". -/
def qAns2 : Question :=
  { id := "a", question := some "Q?", options := some ["x", "y"],
    answer := some "y" }

/-- A fetcher serving the single object `qAns1` on the Age endpoint. -/
def fetchAns1 : String → Except Unit ApiData :=
  fun e => if e = "Age" then .ok (.single qAns1) else .error ()

/-- The same fetcher with only the answer key changed. -/
def fetchAns2 : String → Except Unit ApiData :=
  fun e => if e = "Age" then .ok (.single qAns2) else .error ()

/-- A stored, enabled test configuration with one topic and quota 2. -/
def cfgAge : TestConfig :=
  { testId := "t1", company := 1, name := "Aptitude", description := none,
    duration := 45, topics := ["Age"], questionsPerTopic := 2,
    passingScore := 60, isActive := true, createdAt := "2024-01-01" }

/-- A store with one job holding `cfgAge`. -/
def storeAge : List Job :=
  [{ company := 1, title := "Engineer", quests := [cfgAge] }]

/-- A constant index order for pools of length 1. -/
def shuffles0 : Nat → List Nat := fun _ => [0]

/-- A constant index order for pools of length 3. -/
def shuffles3 : Nat → List Nat := fun _ => [2, 0, 1]

/-- Request with an unknown topic and the required `name` field absent. -/
def reqMissingName : TestConfigRequest :=
  { testId := some "t9", name := none, description := none, duration := none,
    topics := some ["Unknown Topic"], questionsPerTopic := some 5,
    passingScore := none, isActive := none }

/-- Request with all required fields present and an unknown second topic. -/
def reqBadTopic : TestConfigRequest :=
  { testId := some "t9", name := some "Quiz", description := none,
    duration := none, topics := some ["Age", "Nope"],
    questionsPerTopic := some 5, passingScore := none, isActive := none }

/-- Valid request which explicitly supplies `duration: 0`. -/
def reqDurationZero : TestConfigRequest :=
  { testId := some "t9", name := some "Quiz", description := none,
    duration := some 0, topics := some ["Age"], questionsPerTopic := some 5,
    passingScore := none, isActive := none }

/-- The configuration the handler builds from `reqDurationZero`. -/
def cfgDurationZero : TestConfig :=
  { testId := "t9", company := 1, name := "Quiz", description := none,
    duration := 45, topics := ["Age"], questionsPerTopic := 5,
    passingScore := 60, isActive := true, createdAt := "now" }

/-- Valid request supplying duration 30, passingScore 0, isActive false. -/
def reqSupplied : TestConfigRequest :=
  { testId := some "t2", name := some "Quiz2", description := some "d",
    duration := some 30, topics := some ["Age"], questionsPerTopic := some 3,
    passingScore := some 0, isActive := some false }

/-- The configuration the handler builds from `reqSupplied`. -/
def cfgSupplied : TestConfig :=
  { testId := "t2", company := 1, name := "Quiz2", description := some "d",
    duration := 30, topics := ["Age"], questionsPerTopic := 3,
    passingScore := 60, isActive := false, createdAt := "now" }

/-- A fully valid request with two topics. -/
def reqValid : TestConfigRequest :=
  { testId := some "t3", name := some "Quiz3", description := none,
    duration := none, topics := some ["Age", "Calendars"],
    questionsPerTopic := some 2, passingScore := none, isActive := none }

/-- Request whose `questionsPerTopic` is present but equal to 0. -/
def reqZeroQpt : TestConfigRequest :=
  { testId := some "t4", name := some "Quiz4", description := none,
    duration := none, topics := some ["Age"], questionsPerTopic := some 0,
    passingScore := none, isActive := none }

/-- A job owned by another company. -/
def jobOther : Job := { company := 2, title := "Sales", quests := [] }

/-- A job owned by company 1, with no quests yet. -/
def jobMine : Job := { company := 1, title := "Engineer", quests := [] }

/-- Store in which company 1's first job comes after another company's. -/
def storeTwo : List Job := [jobOther, jobMine]

/-- A stored user. -/
def userAlice : User :=
  { id := 5, email := "alice@example.com", name := "Alice",
    role := "candidate", companyName := none }

/-- A password comparison that rejects everything (wrong password). -/
def compareNever : User → String → Bool := fun _ _ => false

/-- A constant token generator. -/
def genTok : User → String := fun _ => "token"

/-- The session payload produced by `startSession fetchAge3 shuffles3
storeAge 7 "start" 111 "t1"`: pool `[qA, qB, qC]` shuffled to
`[qC, qA, qB]`, quota 2, so `qC` and `qA` are served. -/
def payloadAge : SessionPayload :=
  { sessionId := "t1-7-111", testId := "t1", startTime := "start",
    duration := 45,
    topics := [{ name := "Age",
                 questions :=
                   [{ id := "c", question := "", options := [], topic := "Age" },
                    { id := "a", question := "What is 2+2?",
                      options := ["3", "4"], topic := "Age" }] }],
    totalQuestions := 2 }

/-! Helper lemmas. -/

/-- Reading a list at the indices `0, 1, ..., length - 1` gives it back. -/
theorem filterMap_getElem_range {α : Type} (l : List α) :
    (List.range l.length).filterMap (fun i => l[i]?) = l := by
  induction l with
  | nil => rfl
  | cons a l ih =>
    have hcomp : ((fun i => (a :: l)[i]?) ∘ Nat.succ) = fun i => l[i]? := by
      funext i
      simp
    rw [List.length_cons, List.range_succ_eq_map, List.filterMap_cons]
    simp only [List.getElem?_cons_zero, List.filterMap_map, hcomp, ih]

/-- A valid shuffle (an index order permuting `range pool.length`) produces a
permutation of the pool. -/
theorem applyIndexPerm_perm {idxs : List Nat} {pool : List Question}
    (h : idxs.Perm (List.range pool.length)) :
    (applyIndexPerm idxs pool).Perm pool := by
  have hp := h.filterMap (fun i => pool[i]?)
  rwa [filterMap_getElem_range] at hp

/-- A valid shuffle keeps the pool length. -/
theorem applyIndexPerm_length {idxs : List Nat} {pool : List Question}
    (h : idxs.Perm (List.range pool.length)) :
    (applyIndexPerm idxs pool).length = pool.length :=
  (applyIndexPerm_perm h).length_eq

/-- For a nonnegative end, JS slice from 0 is a take. -/
theorem jsSlice_nonneg {α : Type} (l : List α) {e : Int} (he : 0 ≤ e) :
    jsSlice l e = l.take e.toNat := by
  unfold jsSlice
  rw [if_neg (not_lt.mpr he)]

/-- A slice is a sublist of the sliced list. -/
theorem jsSlice_sublist {α : Type} (l : List α) (e : Int) :
    (jsSlice l e).Sublist l := by
  unfold jsSlice
  split
  · exact List.take_sublist _ _
  · exact List.take_sublist _ _

/-- Slicing a list without duplicates leaves no duplicates. -/
theorem jsSlice_nodup {α : Type} {l : List α} (e : Int) (h : l.Nodup) :
    (jsSlice l e).Nodup :=
  (jsSlice_sublist l e).nodup h

/-- Slicing commutes with mapping. -/
theorem jsSlice_map {α β : Type} (f : α → β) (l : List α) (e : Int) :
    jsSlice (l.map f) e = (jsSlice l e).map f := by
  unfold jsSlice
  rw [List.length_map]
  split
  · rw [List.map_take]
  · rw [List.map_take]

/-- Unfolding equation for the per-topic loop on a nonempty topic list. -/
theorem processTopics_cons (fetch : String → Except Unit ApiData)
    (shuffles : Nat → List Nat) (qpt : Int) (i : Nat) (t : String)
    (ts : List String) :
    processTopics fetch shuffles qpt i (t :: ts) =
      match processTopic fetch (shuffles i) qpt t with
      | .error e => .error e
      | .ok r =>
        match processTopics fetch shuffles qpt (i + 1) ts with
        | .error e => .error e
        | .ok rs => .ok (r :: rs) := rfl

/-- A successful loop body labels its block with the topic name. -/
theorem processTopic_ok_name {fetch : String → Except Unit ApiData}
    {perm : List Nat} {qpt : Int} {t : String} {r : TopicResult}
    (h : processTopic fetch perm qpt t = .ok r) : r.name = t := by
  cases hf : fetch (endpointOf t) with
  | error e =>
    simp only [processTopic, hf] at h
    exact Except.noConfusion h
  | ok d =>
    simp only [processTopic, hf, Except.ok.injEq] at h
    rw [← h]

/-- A successful loop produces one block per topic, in order, with the same
names. -/
theorem processTopics_ok_names (fetch : String → Except Unit ApiData)
    (shuffles : Nat → List Nat) (qpt : Int) :
    ∀ (ts : List String) (i : Nat) (blocks : List TopicResult),
      processTopics fetch shuffles qpt i ts = .ok blocks →
      blocks.map (fun b => b.name) = ts := by
  intro ts
  induction ts with
  | nil =>
    intro i blocks h
    simp only [processTopics, Except.ok.injEq] at h
    subst h
    rfl
  | cons t ts ih =>
    intro i blocks h
    cases hpt : processTopic fetch (shuffles i) qpt t with
    | error e =>
      simp only [processTopics_cons, hpt] at h
      exact Except.noConfusion h
    | ok r =>
      cases hrest : processTopics fetch shuffles qpt (i + 1) ts with
      | error e =>
        simp only [processTopics_cons, hpt, hrest] at h
        exact Except.noConfusion h
      | ok rs =>
        simp only [processTopics_cons, hpt, hrest, Except.ok.injEq] at h
        subst h
        simp only [List.map_cons]
        rw [processTopic_ok_name hpt, ih (i + 1) rs hrest]

/-- If the fetch of any listed topic fails, the whole loop fails. -/
theorem processTopics_error_of_fetch_error (fetch : String → Except Unit ApiData)
    (shuffles : Nat → List Nat) (qpt : Int) :
    ∀ (ts : List String) (i : Nat),
      (∃ t ∈ ts, fetch (endpointOf t) = .error ()) →
      processTopics fetch shuffles qpt i ts = .error () := by
  intro ts
  induction ts with
  | nil =>
    intro i h
    exact absurd h (by simp)
  | cons t ts ih =>
    intro i h
    cases hf : fetch (endpointOf t) with
    | error e =>
      have hpt : processTopic fetch (shuffles i) qpt t = .error () := by
        simp only [processTopic, hf]
      simp only [processTopics_cons, hpt]
    | ok d =>
      obtain ⟨t0, ht0, hferr⟩ := h
      rcases List.mem_cons.mp ht0 with h1 | h1
      · subst h1
        rw [hf] at hferr
        exact absurd hferr (by simp)
      · have hrec := ih (i + 1) ⟨t0, h1, hferr⟩
        cases hpt : processTopic fetch (shuffles i) qpt t with
        | error e =>
          simp only [processTopics_cons, hpt]
        | ok r =>
          simp only [processTopics_cons, hpt, hrec]

/-- Normalization commutes with answer erasure. -/
theorem normalizeData_scrub (d : ApiData) :
    normalizeData (scrubData d) = (normalizeData d).map scrubQ := by
  cases d <;> rfl

/-- Shuffling commutes with answer erasure. -/
theorem applyIndexPerm_scrub (idxs : List Nat) (pool : List Question) :
    applyIndexPerm idxs (pool.map scrubQ) =
      (applyIndexPerm idxs pool).map scrubQ := by
  unfold applyIndexPerm
  rw [List.map_filterMap]
  simp only [List.getElem?_map]

/-- Tagging commutes with answer erasure. -/
theorem selectQuestion_scrub (t : String) (q : Question) :
    selectQuestion t (scrubQ q) = scrubSel (selectQuestion t q) := rfl

/-- The loop body under the answer-erased fetcher. -/
theorem processTopic_scrub (f : String → Except Unit ApiData) (perm : List Nat)
    (qpt : Int) (t : String) :
    processTopic (scrubFetch f) perm qpt t =
      (processTopic f perm qpt t).map scrubTR := by
  cases hf : f (endpointOf t) with
  | error e =>
    simp only [processTopic, scrubFetch, hf, Except.map]
  | ok d =>
    have hfun : (selectQuestion t ∘ scrubQ) = (scrubSel ∘ selectQuestion t) := by
      funext q
      rfl
    simp only [processTopic, scrubFetch, hf, Except.map, Except.ok.injEq]
    rw [normalizeData_scrub, applyIndexPerm_scrub, jsSlice_map, List.map_map,
      hfun, ← List.map_map]
    rfl

/-- The loop under the answer-erased fetcher. -/
theorem processTopics_scrub (f : String → Except Unit ApiData)
    (shuffles : Nat → List Nat) (qpt : Int) :
    ∀ (ts : List String) (i : Nat),
      processTopics (scrubFetch f) shuffles qpt i ts =
        (processTopics f shuffles qpt i ts).map (List.map scrubTR) := by
  intro ts
  induction ts with
  | nil => intro i; rfl
  | cons t ts ih =>
    intro i
    rw [processTopics_cons, processTopics_cons, processTopic_scrub, ih (i + 1)]
    cases processTopic f (shuffles i) qpt t with
    | error e => rfl
    | ok r =>
      cases processTopics f shuffles qpt (i + 1) ts with
      | error e => rfl
      | ok rs => rfl

/-- The public projection ignores answer erasure. -/
theorem toPubTopic_scrub (r : TopicResult) :
    toPubTopic (scrubTR r) = toPubTopic r := by
  have hfun : (toPub ∘ scrubSel) = toPub := by
    funext s
    rfl
  unfold toPubTopic scrubTR
  simp only [List.map_map, hfun]

/-- Answer erasure preserves the question count of a block. -/
theorem scrubTR_length (r : TopicResult) :
    (scrubTR r).questions.length = r.questions.length := by
  simp [scrubTR]

/-- The start handler's response is invariant under erasing upstream answer
keys: it depends only on the public view of the fetched data. -/
theorem startSession_scrub (f : String → Except Unit ApiData)
    (shuffles : Nat → List Nat) (store : List Job) (uid : Nat) (now : String)
    (nowMs : Nat) (testId : String) :
    startSession (scrubFetch f) shuffles store uid now nowMs testId =
      startSession f shuffles store uid now nowMs testId := by
  unfold startSession
  cases findJobWithTest testId store with
  | none => rfl
  | some job =>
    dsimp only
    cases job.quests.find? (fun q => q.testId == testId) with
    | none => rfl
    | some cfg =>
      dsimp only
      cases hact : cfg.isActive with
      | false => rfl
      | true =>
        simp only [Bool.not_true, Bool.false_eq_true, if_false]
        rw [processTopics_scrub]
        cases processTopics f shuffles cfg.questionsPerTopic 0 cfg.topics with
        | error e => rfl
        | ok blocks =>
          simp only [Except.map, StartResult.ok.injEq, SessionPayload.mk.injEq]
          refine ⟨trivial, trivial, trivial, trivial, ?_, ?_⟩
          · rw [List.map_map]
            have hfun : (toPubTopic ∘ scrubTR) = toPubTopic := by
              funext r
              exact toPubTopic_scrub r
            rw [hfun]
          · rw [List.map_map]
            have hfun : ((fun b : TopicResult => b.questions.length) ∘ scrubTR) =
                fun b : TopicResult => b.questions.length := by
              funext r
              exact scrubTR_length r
            rw [hfun]

/-- When the actor owns no stored job, the push update is a no-op. -/
theorem pushQuest_no_match (uid : Nat) (cfg : TestConfig) :
    ∀ store : List Job, (∀ j ∈ store, j.company ≠ uid) →
      pushQuest uid cfg store = store := by
  intro store
  induction store with
  | nil => intro _; rfl
  | cons j js ih =>
    intro h
    unfold pushQuest
    rw [if_neg (h j (List.mem_cons_self j js)),
      ih (fun jp hjp => h jp (List.mem_cons_of_mem j hjp))]

/-- The push lands on the first job owned by the actor, leaving every other
job and every other field unchanged. -/
theorem pushQuest_first_match (uid : Nat) (cfg : TestConfig) :
    ∀ (pre : List Job) (j : Job) (post : List Job), j.company = uid →
      (∀ jp ∈ pre, jp.company ≠ uid) →
      pushQuest uid cfg (pre ++ j :: post) =
        pre ++ { j with quests := j.quests ++ [cfg] } :: post := by
  intro pre
  induction pre with
  | nil =>
    intro j post hj _
    simp only [List.nil_append]
    unfold pushQuest
    rw [if_pos hj]
  | cons p ps ih =>
    intro j post hj hpre
    simp only [List.cons_append]
    unfold pushQuest
    rw [if_neg (hpre p (List.mem_cons_self p ps)),
      ih j post hj (fun jp hjp => hpre jp (List.mem_cons_of_mem p hjp))]

/-! Claim theorems. -/

/-- C1: For every topic processed by startSession (whose per-topic loop body
is `processTopic`), when the topic's fetch succeeds with a pool and the drawn
shuffle is a genuine permutation of the pool's index range, the selection for
that topic has exactly `min (pool size) questionsPerTopic` questions (the
full quota when the pool suffices, the whole pool without error otherwise),
every selected question is tagged with the topic name, and — the selection
being a slice of a permutation of the pool — no pool question appears twice
in it when the pool has no duplicates. -/
theorem C1_topic_selection (fetch : String → Except Unit ApiData)
    (perm : List Nat) (qpt : Int) (topic : String) (data : ApiData)
    (hf : fetch (endpointOf topic) = .ok data)
    (hperm : perm.Perm (List.range (normalizeData data).length))
    (hq : 0 ≤ qpt) :
    ∃ tr, processTopic fetch perm qpt topic = .ok tr ∧
      tr.questions.length = min (normalizeData data).length qpt.toNat ∧
      (∀ q ∈ tr.questions, q.topic = topic) ∧
      tr.questions =
        (jsSlice (applyIndexPerm perm (normalizeData data)) qpt).map
          (selectQuestion topic) ∧
      ((normalizeData data).Nodup →
        (jsSlice (applyIndexPerm perm (normalizeData data)) qpt).Nodup) := by
  refine ⟨{ name := topic,
            questions :=
              (jsSlice (applyIndexPerm perm (normalizeData data)) qpt).map
                (selectQuestion topic) },
    ?_, ?_, ?_, rfl, ?_⟩
  · simp only [processTopic, hf]
  · rw [List.length_map, jsSlice_nonneg _ hq, List.length_take,
      applyIndexPerm_length hperm]
    exact min_comm _ _
  · intro q hmem
    simp only [List.mem_map] at hmem
    obtain ⟨q0, _, hq0⟩ := hmem
    rw [← hq0]
    rfl
  · intro hnd
    exact jsSlice_nodup _ ((applyIndexPerm_perm hperm).symm.nodup hnd)

/-- C1 witness: the Age pool `[qA, qB, qC]`, shuffle order `[2, 0, 1]` and
quota 5: all three questions are served. -/
theorem C1_topic_selection_witness :
    ∃ tr, processTopic fetchAge3 [2, 0, 1] 5 "Age" = .ok tr ∧
      tr.questions.length =
        min (normalizeData (.arr [qA, qB, qC])).length (5 : Int).toNat ∧
      (∀ q ∈ tr.questions, q.topic = "Age") ∧
      tr.questions =
        (jsSlice (applyIndexPerm [2, 0, 1] (normalizeData (.arr [qA, qB, qC]))) 5).map
          (selectQuestion "Age") ∧
      ((normalizeData (.arr [qA, qB, qC])).Nodup →
        (jsSlice (applyIndexPerm [2, 0, 1] (normalizeData (.arr [qA, qB, qC]))) 5).Nodup) :=
  C1_topic_selection fetchAge3 [2, 0, 1] 5 "Age" (.arr [qA, qB, qC]) rfl
    (by decide) (by decide)

/-- C2: a successful startSession response lists one topics entry per quest
topic, in stored order and with the same names, and its totalQuestions is
the sum of the per-topic question-array lengths. -/
theorem C2_topics_and_total (fetch : String → Except Unit ApiData)
    (shuffles : Nat → List Nat) (store : List Job) (uid : Nat) (now : String)
    (nowMs : Nat) (testId : String) (payload : SessionPayload)
    (cfg : TestConfig)
    (hs : startSession fetch shuffles store uid now nowMs testId = .ok payload)
    (hm : matchedConfig testId store = some cfg) :
    payload.topics.map (fun t => t.name) = cfg.topics ∧
      payload.totalQuestions =
        (payload.topics.map (fun t => t.questions.length)).sum := by
  unfold startSession at hs
  cases hfj : findJobWithTest testId store with
  | none =>
    simp only [hfj] at hs
    exact StartResult.noConfusion hs
  | some job =>
    simp only [hfj] at hs
    cases hfq : job.quests.find? (fun q => q.testId == testId) with
    | none =>
      simp only [hfq] at hs
      exact StartResult.noConfusion hs
    | some cfg2 =>
      simp only [hfq] at hs
      have hcfg : cfg2 = cfg := by
        unfold matchedConfig at hm
        rw [hfj] at hm
        simp only [Option.some_bind] at hm
        rw [hfq] at hm
        exact Option.some.inj hm
      subst hcfg
      cases hact : cfg2.isActive with
      | false =>
        simp only [hact, Bool.not_false, if_true] at hs
        exact StartResult.noConfusion hs
      | true =>
        simp only [hact, Bool.not_true, Bool.false_eq_true, if_false] at hs
        cases hpt : processTopics fetch shuffles cfg2.questionsPerTopic 0 cfg2.topics with
        | error e =>
          simp only [hpt] at hs
          exact StartResult.noConfusion hs
        | ok blocks =>
          simp only [hpt, StartResult.ok.injEq] at hs
          subst hs
          have hnames :=
            processTopics_ok_names fetch shuffles cfg2.questionsPerTopic
              cfg2.topics 0 blocks hpt
          constructor
          · have hfun : ((fun t : PubTopic => t.name) ∘ toPubTopic) =
                fun b : TopicResult => b.name := by
              funext b
              rfl
            simp only [List.map_map, hfun]
            exact hnames
          · have hfun : ((fun t : PubTopic => t.questions.length) ∘ toPubTopic) =
                fun b : TopicResult => b.questions.length := by
              funext b
              simp [toPubTopic]
            simp only [List.map_map, hfun]

/-- C2 witness: the concrete session over the Age pool serves one topics
entry named Age and totalQuestions 2. -/
theorem C2_topics_and_total_witness :
    payloadAge.topics.map (fun t => t.name) = cfgAge.topics ∧
      payloadAge.totalQuestions =
        (payloadAge.topics.map (fun t => t.questions.length)).sum :=
  C2_topics_and_total fetchAge3 shuffles3 storeAge 7 "start" 111 "t1"
    payloadAge cfgAge (by decide) (by decide)

/-- C3: startSession answers NotFound — and then carries no session payload,
the notFound constructor having none — exactly when no stored job's quest
list has an entry with the requested testId, or when the matched entry's
isActive flag is not true; a stored enabled test never yields NotFound. -/
theorem C3_not_found_iff (fetch : String → Except Unit ApiData)
    (shuffles : Nat → List Nat) (store : List Job) (uid : Nat) (now : String)
    (nowMs : Nat) (testId : String) :
    (∃ msg, startSession fetch shuffles store uid now nowMs testId =
        .notFound msg) ↔
      matchedConfig testId store = none ∨
        ∃ cfg, matchedConfig testId store = some cfg ∧ cfg.isActive = false := by
  unfold startSession matchedConfig
  cases hfj : findJobWithTest testId store with
  | none => simp
  | some job =>
    cases hfq : job.quests.find? (fun q => q.testId == testId) with
    | none => simp [hfq]
    | some cfg =>
      cases hact : cfg.isActive with
      | false => simp [hfq, hact]
      | true =>
        cases hpt : processTopics fetch shuffles cfg.questionsPerTopic 0 cfg.topics with
        | error e => simp [hfq, hact, hpt]
        | ok blocks => simp [hfq, hact, hpt]

/-- C4: if the fetch of any topic of the matched, enabled quest fails, the
whole request answers the 500 error — the serverError constructor carries no
payload, so no partial result built from the other topics is surfaced, and
the sequential loop issues no retry. -/
theorem C4_upstream_failure (fetch : String → Except Unit ApiData)
    (shuffles : Nat → List Nat) (store : List Job) (uid : Nat) (now : String)
    (nowMs : Nat) (testId : String) (cfg : TestConfig)
    (hm : matchedConfig testId store = some cfg)
    (hact : cfg.isActive = true)
    (hfail : ∃ t ∈ cfg.topics, fetch (endpointOf t) = .error ()) :
    startSession fetch shuffles store uid now nowMs testId =
      .serverError "Failed to start test" := by
  unfold matchedConfig at hm
  cases hfj : findJobWithTest testId store with
  | none =>
    rw [hfj] at hm
    exact Option.noConfusion hm
  | some job =>
    rw [hfj] at hm
    simp only [Option.some_bind] at hm
    have hpt :=
      processTopics_error_of_fetch_error fetch shuffles cfg.questionsPerTopic
        cfg.topics 0 hfail
    unfold startSession
    simp only [hfj, hm, hact, hpt, Bool.not_true, Bool.false_eq_true, if_false]

/-- C4 witness: with every upstream fetch failing, the session start over the
stored enabled test answers the 500 error. -/
theorem C4_upstream_failure_witness :
    startSession fetchFail shuffles3 storeAge 7 "start" 111 "t1" =
      .serverError "Failed to start test" :=
  C4_upstream_failure fetchFail shuffles3 storeAge 7 "start" 111 "t1" cfgAge
    (by decide) (by decide) ⟨"Age", by decide, rfl⟩

/-- C5: each question in a successful startSession response carries exactly
the public fields id, question, options and topic (the response type
`PubQuestion` has no others), and the response is invariant under changing
any non-public upstream field: two fetchers that agree after erasing answer
keys produce identical responses, so an upstream answer key is never
forwarded. -/
theorem C5_answer_noninterference (f1 f2 : String → Except Unit ApiData)
    (shuffles : Nat → List Nat) (store : List Job) (uid : Nat) (now : String)
    (nowMs : Nat) (testId : String)
    (h : scrubFetch f1 = scrubFetch f2) :
    startSession f1 shuffles store uid now nowMs testId =
      startSession f2 shuffles store uid now nowMs testId := by
  rw [← startSession_scrub f1 shuffles store uid now nowMs testId, h,
    startSession_scrub]

/-- C5 witness: two upstream fetchers differing only in the answer key of
the Age question produce the same session response. -/
theorem C5_answer_noninterference_witness :
    startSession fetchAns1 shuffles0 storeAge 7 "start" 111 "t1" =
      startSession fetchAns2 shuffles0 storeAge 7 "start" 111 "t1" :=
  C5_answer_noninterference fetchAns1 fetchAns2 shuffles0 storeAge 7 "start"
    111 "t1"
    (by
      funext e
      unfold scrubFetch fetchAns1 fetchAns2
      by_cases he : e = "Age"
      · rw [if_pos he, if_pos he]
        rfl
      · rw [if_neg he, if_neg he])

/-- C6 counterexample: `reqMissingName` has the unknown topic
"Unknown Topic" in its topics list, yet because its required `name` field is
absent the handler rejects it with the generic missing-fields message, not
with a 400 naming the offending topic — the required-field check runs before
topic validation, so the claim's universal statement fails. -/
theorem C6_counterexample :
    reqMissingName.topics = some ["Unknown Topic"] ∧
      lookupTopic "Unknown Topic" = none ∧
      createTestConfig 1 reqMissingName "now" [] =
        (.validationError "Missing required fields", []) ∧
      (createTestConfig 1 reqMissingName "now" []).1 ≠
        .validationError "Invalid topic: Unknown Topic" := by
  refine ⟨rfl, by decide, by decide, by decide⟩

/-- C6 amended: provided the required fields testId, name, topics and
questionsPerTopic are all present and truthy (so the request passes the
preceding required-field check), any config whose topics list contains a
name absent from the 8-key topic mapping is rejected with a 400 whose
message names the (first) offending topic, and the store is unchanged — no
configuration is created or attached. -/
theorem C6_invalid_topic_rejected (uid : Nat) (req : TestConfigRequest)
    (now : String) (store : List Job)
    (hid : truthyStr req.testId = true) (hname : truthyStr req.name = true)
    (htop : truthyList req.topics = true)
    (hqpt : truthyInt req.questionsPerTopic = true)
    (hbad : ∃ t ∈ req.topics.getD [], lookupTopic t = none) :
    ∃ t, t ∈ req.topics.getD [] ∧ lookupTopic t = none ∧
      createTestConfig uid req now store =
        (.validationError ("Invalid topic: " ++ t), store) := by
  have hsome : (firstInvalidTopic (req.topics.getD [])).isSome = true := by
    unfold firstInvalidTopic
    apply List.find?_isSome.mpr
    obtain ⟨t, ht, hl⟩ := hbad
    exact ⟨t, ht, by rw [hl]; rfl⟩
  cases hfind : firstInvalidTopic (req.topics.getD []) with
  | none =>
    rw [hfind] at hsome
    exact Bool.noConfusion hsome
  | some t =>
    have hmem : t ∈ req.topics.getD [] :=
      List.mem_of_find?_eq_some hfind
    have hnone : lookupTopic t = none := by
      have hp := List.find?_some hfind
      exact Option.isNone_iff_eq_none.mp hp
    refine ⟨t, hmem, hnone, ?_⟩
    simp only [createTestConfig, hid, hname, htop, hqpt, Bool.not_true,
      Bool.or_self, Bool.false_eq_true, if_false, hfind]

/-- C6 amended witness: `reqBadTopic` carries the unknown topic "Nope" next
to the known "Age" and is rejected with a 400 naming it, leaving the store
unchanged. -/
theorem C6_invalid_topic_rejected_witness :
    ∃ t, t ∈ reqBadTopic.topics.getD [] ∧ lookupTopic t = none ∧
      createTestConfig 1 reqBadTopic "now" [] =
        (.validationError ("Invalid topic: " ++ t), []) :=
  C6_invalid_topic_rejected 1 reqBadTopic "now" [] (by decide) (by decide)
    (by decide) (by decide) ⟨"Nope", by decide, by decide⟩

/-- C7 counterexample: `reqDurationZero` supplies `duration: 0` explicitly,
yet the built configuration has duration 45 — `duration || 45` treats every
falsy value as absent, so "duration becomes 45 exactly when duration is
absent" and "values supplied in the request are otherwise kept unchanged"
both fail at this input. -/
theorem C7_counterexample :
    reqDurationZero.duration = some 0 ∧
      (createTestConfig 1 reqDurationZero "now" []).1 = .ok cfgDurationZero ∧
      cfgDurationZero.duration = 45 := by
  refine ⟨rfl, by decide, rfl⟩

/-- C7 amended: in the returned configuration, duration becomes 45 exactly
when the request's duration is absent or 0 (JS-falsy), passingScore becomes
60 exactly when absent or 0, isActive is true unless the request sets it
explicitly to false, and the remaining supplied values (testId, name,
topics, questionsPerTopic, description) are kept unchanged. -/
theorem C7_defaults (uid : Nat) (req : TestConfigRequest) (now : String)
    (store store2 : List Job) (cfg : TestConfig)
    (h : createTestConfig uid req now store = (.ok cfg, store2)) :
    ((req.duration = none ∨ req.duration = some 0) → cfg.duration = 45) ∧
      (∀ n : Int, req.duration = some n → n ≠ 0 → cfg.duration = n) ∧
      ((req.passingScore = none ∨ req.passingScore = some 0) →
        cfg.passingScore = 60) ∧
      (∀ n : Int, req.passingScore = some n → n ≠ 0 → cfg.passingScore = n) ∧
      (cfg.isActive = true ↔ req.isActive ≠ some false) ∧
      (∀ s, req.testId = some s → cfg.testId = s) ∧
      (∀ s, req.name = some s → cfg.name = s) ∧
      (∀ l, req.topics = some l → cfg.topics = l) ∧
      (∀ n, req.questionsPerTopic = some n → cfg.questionsPerTopic = n) ∧
      cfg.description = req.description ∧ cfg.createdAt = now := by
  unfold createTestConfig at h
  cases hreq : (!truthyStr req.testId || !truthyStr req.name ||
      !truthyList req.topics || !truthyInt req.questionsPerTopic) with
  | true =>
    rw [hreq] at h
    simp only [if_true] at h
    exact absurd (congrArg Prod.fst h) (by simp)
  | false =>
    rw [hreq] at h
    simp only [Bool.false_eq_true, if_false] at h
    cases hfind : firstInvalidTopic (req.topics.getD []) with
    | some t =>
      simp only [hfind] at h
      exact absurd (congrArg Prod.fst h) (by simp)
    | none =>
      simp only [hfind, Prod.mk.injEq, CreateResult.ok.injEq] at h
      obtain ⟨hcfg, hstore⟩ := h
      subst hcfg
      refine ⟨?_, ?_, ?_, ?_, ?_, ?_, ?_, ?_, ?_, rfl, rfl⟩
      · rintro (hd | hd) <;> simp [hd, jsOrInt, truthyInt]
      · intro n hd hnz
        simp [hd, jsOrInt, truthyInt, hnz]
      · rintro (hp | hp) <;> simp [hp, jsOrInt, truthyInt]
      · intro n hp hnz
        simp [hp, jsOrInt, truthyInt, hnz]
      · simp [bne]
      · intro s hs
        simp [hs]
      · intro s hs
        simp [hs]
      · intro l hl
        simp [hl]
      · intro n hn
        simp [hn]

/-- C7 amended witness: `reqSupplied` (duration 30, passingScore 0, isActive
false) yields a configuration with duration 30, passingScore defaulted to
60, isActive false, and the other supplied values kept. -/
theorem C7_defaults_witness :
    ((reqSupplied.duration = none ∨ reqSupplied.duration = some 0) →
        cfgSupplied.duration = 45) ∧
      (∀ n : Int, reqSupplied.duration = some n → n ≠ 0 →
        cfgSupplied.duration = n) ∧
      ((reqSupplied.passingScore = none ∨ reqSupplied.passingScore = some 0) →
        cfgSupplied.passingScore = 60) ∧
      (∀ n : Int, reqSupplied.passingScore = some n → n ≠ 0 →
        cfgSupplied.passingScore = n) ∧
      (cfgSupplied.isActive = true ↔ reqSupplied.isActive ≠ some false) ∧
      (∀ s, reqSupplied.testId = some s → cfgSupplied.testId = s) ∧
      (∀ s, reqSupplied.name = some s → cfgSupplied.name = s) ∧
      (∀ l, reqSupplied.topics = some l → cfgSupplied.topics = l) ∧
      (∀ n, reqSupplied.questionsPerTopic = some n →
        cfgSupplied.questionsPerTopic = n) ∧
      cfgSupplied.description = reqSupplied.description ∧
      cfgSupplied.createdAt = "now" :=
  C7_defaults 1 reqSupplied "now" [] [] cfgSupplied (by decide)

/-- C8: a valid createTestConfig request always succeeds with the built
configuration, and its only store effect is the push update: when the actor
owns no stored job the store is returned unchanged (the update is a no-op,
yet the response is still the success payload), and when the actor owns a
job, the first such job gets the configuration appended to its quest list
while every other job — and every other field of that job — is unchanged. -/
theorem C8_attach_effect (uid : Nat) (req : TestConfigRequest) (now : String)
    (store : List Job)
    (hid : truthyStr req.testId = true) (hname : truthyStr req.name = true)
    (htop : truthyList req.topics = true)
    (hqpt : truthyInt req.questionsPerTopic = true)
    (hvalid : firstInvalidTopic (req.topics.getD []) = none) :
    ∃ cfg, createTestConfig uid req now store = (.ok cfg, pushQuest uid cfg store) ∧
      ((∀ j ∈ store, j.company ≠ uid) → pushQuest uid cfg store = store) ∧
      (∀ (pre : List Job) (j : Job) (post : List Job),
        store = pre ++ j :: post → j.company = uid →
        (∀ jp ∈ pre, jp.company ≠ uid) →
        pushQuest uid cfg store =
          pre ++ { j with quests := j.quests ++ [cfg] } :: post) := by
  refine ⟨{ testId := req.testId.getD "", company := uid,
            name := req.name.getD "", description := req.description,
            duration := jsOrInt req.duration 45, topics := req.topics.getD [],
            questionsPerTopic := req.questionsPerTopic.getD 0,
            passingScore := jsOrInt req.passingScore 60,
            isActive := req.isActive != some false, createdAt := now },
    ?_, ?_, ?_⟩
  · simp only [createTestConfig, hid, hname, htop, hqpt, Bool.not_true,
      Bool.or_self, Bool.false_eq_true, if_false, hvalid]
  · intro h
    exact pushQuest_no_match uid _ store h
  · intro pre j post hdec hj hpre
    rw [hdec]
    exact pushQuest_first_match uid _ pre j post hj hpre

/-- C8 witness: over `storeTwo` (another company's job first, then company
1's job), company 1's valid request succeeds and the push appends to the
second job only. -/
theorem C8_attach_effect_witness :
    ∃ cfg, createTestConfig 1 reqValid "now" storeTwo =
        (.ok cfg, pushQuest 1 cfg storeTwo) ∧
      ((∀ j ∈ storeTwo, j.company ≠ 1) → pushQuest 1 cfg storeTwo = storeTwo) ∧
      (∀ (pre : List Job) (j : Job) (post : List Job),
        storeTwo = pre ++ j :: post → j.company = 1 →
        (∀ jp ∈ pre, jp.company ≠ 1) →
        pushQuest 1 cfg storeTwo =
          pre ++ { j with quests := j.quests ++ [cfg] } :: post) :=
  C8_attach_effect 1 reqValid "now" storeTwo (by decide) (by decide)
    (by decide) (by decide) (by decide)

/-- C9: login answers 401 both for an unknown email and for a known email
with a non-matching password, and the two failure results — error body
included — are identical, so the client cannot distinguish the causes. -/
theorem C9_login_indistinguishable (compare : User → String → Bool)
    (gen : User → String) (users : List User) (e1 p1 e2 p2 : String)
    (u : User)
    (h1 : users.find? (fun v => v.email == e1) = none)
    (h2 : users.find? (fun v => v.email == e2) = some u)
    (h3 : compare u p2 = false) :
    login compare gen users e1 p1 = .unauthorized "Invalid credentials" ∧
      login compare gen users e2 p2 = .unauthorized "Invalid credentials" ∧
      login compare gen users e1 p1 = login compare gen users e2 p2 := by
  have ha : login compare gen users e1 p1 =
      .unauthorized "Invalid credentials" := by
    unfold login
    simp only [h1]
  have hb : login compare gen users e2 p2 =
      .unauthorized "Invalid credentials" := by
    unfold login
    simp only [h2, h3, Bool.false_eq_true, if_false]
  exact ⟨ha, hb, by rw [ha, hb]⟩

/-- C9 witness: an unknown email and Alice's email with a rejected password
both yield the identical Invalid credentials 401 body. -/
theorem C9_login_indistinguishable_witness :
    login compareNever genTok [userAlice] "nobody@example.com" "pw" =
        .unauthorized "Invalid credentials" ∧
      login compareNever genTok [userAlice] "alice@example.com" "wrong" =
        .unauthorized "Invalid credentials" ∧
      login compareNever genTok [userAlice] "nobody@example.com" "pw" =
        login compareNever genTok [userAlice] "alice@example.com" "wrong" :=
  C9_login_indistinguishable compareNever genTok [userAlice]
    "nobody@example.com" "pw" "alice@example.com" "wrong" userAlice
    (by decide) (by decide) rfl

/-- C10: a createTestConfig request whose questionsPerTopic is present but
equal to 0 — with testId, name and a valid topics list all supplied — is
rejected with the 400 Missing required fields error and leaves the store
unchanged: the required-field check `!questionsPerTopic` treats the falsy
value 0 as missing. -/
theorem C10_zero_quota_rejected (uid : Nat) (req : TestConfigRequest)
    (now : String) (store : List Job)
    (hqpt : req.questionsPerTopic = some 0)
    (hid : truthyStr req.testId = true) (hname : truthyStr req.name = true)
    (htop : truthyList req.topics = true)
    (hvalid : firstInvalidTopic (req.topics.getD []) = none) :
    createTestConfig uid req now store =
      (.validationError "Missing required fields", store) := by
  unfold createTestConfig
  rw [hqpt]
  simp [hid, hname, htop, truthyInt]

/-- C10 witness: `reqZeroQpt` (questionsPerTopic 0, everything else valid)
is rejected as missing required fields. -/
theorem C10_zero_quota_rejected_witness :
    createTestConfig 1 reqZeroQpt "now" [] =
      (.validationError "Missing required fields", []) :=
  C10_zero_quota_rejected 1 reqZeroQpt "now" [] rfl (by decide) (by decide)
    (by decide) (by decide)
